import Mathlib

/-!
Verification of the 2025-CHATTONER-Server orchestration core.

Shallow embedding of the two LangChain pipeline chains:
  - `FinetuneChain` (python_backend/langchain_pipeline/chains/finetune_chain.py):
    routing decision `_should_use_lora`, two-stage conversion `convert_to_formal`
    with `_generate_with_lora` and `_refine_with_gpt`;
  - `RAGChain` (python_backend/langchain_pipeline/chains/rag_chain.py):
    `_load_vectorstore`, `ask_with_styles`, `process_user_feedback`.

External collaborators (the RunPod inference endpoint, the OpenAI refinement
service, the FAISS retriever, ConversionService and UserPreferencesService) are
modelled as oracle values supplied to each call: each oracle records what the
collaborator would return or which exception it would raise.  Python
exceptions are modelled with `Except`/explicit error constructors; every
`try/except` of the source becomes an explicit match on the oracle outcome.
Timestamps (`datetime.now().isoformat()`) are omitted from result records.
-/

namespace ChatToner

/-- A user profile dictionary as consumed by the chains.  Python dicts are
accessed with `.get(key, default)`; an `Option` field that is `none` models an
absent key.  `formal_document_mode` defaults to `False` in the source. -/
structure UserProfile where
  formal_document_mode : Bool := false
  sessionFormalityLevel : Option Int := none
  baseFormalityLevel : Option Int := none
  sessionDirectnessLevel : Option Int := none
  baseDirectnessLevel : Option Int := none
  userId : Option String := none
  deriving DecidableEq, Repr

/-- The formality fallback chain of `_should_use_lora`:
`user_profile.get('sessionFormalityLevel', user_profile.get('baseFormalityLevel', 3))`. -/
def effectiveFormality (p : UserProfile) : Int :=
  p.sessionFormalityLevel.getD (p.baseFormalityLevel.getD 3)

/-- Embedding of `FinetuneChain._should_use_lora` (finetune_chain.py lines 84-102). -/
def should_use_lora (p : UserProfile) (context : String) : Bool :=
  if p.formal_document_mode then
    true
  else
    let formality_level := effectiveFormality p
    if formality_level ≥ 5 then
      true
    else if formality_level ≥ 4 ∧ context ∈ (["business", "report"] : List String) then
      true
    else
      false

/-- Modelled from the spec (the reference routing definition of the claim):
if formal-document mode is set escalate; otherwise let formality be the session
formality if present, else the base formality, else 3; escalate if formality ≥ 5
for any context; escalate if formality ≥ 4 and the context is business or
report; otherwise do not escalate. -/
def decideSpecRouting (p : UserProfile) (context : String) : Bool :=
  if p.formal_document_mode then
    true
  else
    let formality : Int :=
      match p.sessionFormalityLevel with
      | some f => f
      | none =>
        match p.baseFormalityLevel with
        | some f => f
        | none => 3
    if formality ≥ 5 then
      true
    else if formality ≥ 4 ∧ (context = "business" ∨ context = "report") then
      true
    else
      false

/-- Construction-time state of a `FinetuneChain` instance: whether the
Services imports succeeded and whether the RunPod health probe succeeded. -/
structure FinetuneState where
  services_available : Bool
  is_inference_server_available : Bool
  deriving DecidableEq, Repr

/-- Outcome of the HTTP round trip inside `_generate_with_lora`:
either the parsed `result` field of a 2xx response, an `httpx.HTTPError`
(transport error, timeout, or `raise_for_status` on a non-2xx answer), or any
other exception while processing the response (e.g. a missing `result` key). -/
inductive GenOutcome where
  | ok (text : String)
  | httpError (msg : String)
  | respError (msg : String)
  deriving DecidableEq, Repr

/-- Whether the generation round trip failed. -/
def GenOutcome.failed : GenOutcome → Bool
  | .ok _ => false
  | .httpError _ => true
  | .respError _ => true

/-- Embedding of `FinetuneChain._generate_with_lora` (lines 104-131).  Raises when the
server is unavailable; otherwise both `except` clauses swallow the failure and
return the original input text. -/
def generate_with_lora (st : FinetuneState) (input_text : String) (o : GenOutcome) :
    Except String String :=
  if st.is_inference_server_available = false then
    .error "Cannot connect to RunPod inference server."
  else
    match o with
    | .ok t => .ok t
    | .httpError _ => .ok input_text
    | .respError _ => .ok input_text

/-- Outcome of the refinement call chain inside `_refine_with_gpt`
(`prompt_engineer.generate_conversion_prompts` followed by
`openai_service._convert_single_style`): the refined text, or any exception
raised along the way. -/
inductive RefineOutcome where
  | ok (text : String)
  | exn (msg : String)
  deriving DecidableEq, Repr

/-- Embedding of `FinetuneChain._refine_with_gpt` (lines 133-188): returns `lora_output`
unchanged when Services are unavailable or when any exception occurs, else the
refined text. -/
def refine_with_gpt (st : FinetuneState) (lora_output : String) (o : RefineOutcome) : String :=
  if st.services_available = false then
    lora_output
  else
    match o with
    | .ok t => t
    | .exn _ => lora_output

/-- The result dictionary of `convert_to_formal`.  `lora_output` models the
`lora_output` key (present and non-null only on the server path); `forced`
models the `forced` key (present only on the success result). -/
structure ConvResult where
  success : Bool
  converted_text : String
  lora_output : Option String := none
  method : String
  reason : String
  error : Option String := none
  forced : Option Bool := none
  deriving DecidableEq, Repr

/-- Oracle for one `convert_to_formal` call: the generation outcome, the
refinement outcome, and an optional unexpected exception raised elsewhere in
the `try` block of the orchestration. -/
structure ConvertOracle where
  gen : GenOutcome
  refine : RefineOutcome
  unexpected : Option String := none
  deriving DecidableEq, Repr

/-- The `should_convert` flag of `convert_to_formal` (lines 205-213). -/
def shouldConvert (p : UserProfile) (context : String) (force_convert : Bool) : Bool :=
  force_convert || should_use_lora p context

/-- The `conversion_reason` string of `convert_to_formal` (lines 205-213). -/
def conversionReason (p : UserProfile) (context : String) (force_convert : Bool) : String :=
  if force_convert then "user_explicit_request"
  else if should_use_lora p context then "auto_condition"
  else "condition_not_met"

/-- Embedding of `FinetuneChain.convert_to_formal` (lines 190-262).  The `try` block is
modelled by matching on the oracle: an unexpected exception, or the raise
inside `_generate_with_lora`, lands in the outer `except` result
(`method = "error"`); generation transport failures are swallowed inside
`_generate_with_lora` itself. -/
def convert_to_formal (st : FinetuneState) (input_text : String) (p : UserProfile)
    (context : String) (force_convert : Bool) (o : ConvertOracle) : ConvResult :=
  if shouldConvert p context force_convert = false then
    { success := false,
      error := some "Does not meet formal document conversion conditions.",
      converted_text := "",
      method := "none",
      reason := conversionReason p context force_convert }
  else
    match o.unexpected with
    | some e =>
      { success := false,
        error := some ("Error occurred during conversion: " ++ e),
        converted_text := "",
        method := "error",
        reason := conversionReason p context force_convert }
    | none =>
      if st.is_inference_server_available then
        match generate_with_lora st input_text o.gen with
        | .error e =>
          { success := false,
            error := some ("Error occurred during conversion: " ++ e),
            converted_text := "",
            method := "error",
            reason := conversionReason p context force_convert }
        | .ok lora_output =>
          { success := true,
            converted_text := refine_with_gpt st lora_output o.refine,
            lora_output := some lora_output,
            method := "lora_gpt",
            reason := conversionReason p context force_convert,
            forced := some force_convert }
      else
        { success := true,
          converted_text := refine_with_gpt st input_text o.refine,
          lora_output := none,
          method := "gpt_only",
          reason := conversionReason p context force_convert,
          forced := some force_convert }

/-- A document returned by the FAISS retriever: its `page_content` and the
optional `source` entry of its metadata dictionary. -/
structure RetrievedDoc where
  page_content : String
  source : Option String := none
  deriving DecidableEq, Repr

/-- The three style variants of a ConversionService result. -/
structure StyleVariants where
  direct : String
  gentle : String
  neutral : String
  deriving DecidableEq, Repr

/-- One entry of the `sources` list built by `ask_with_styles` (lines 243-247). -/
structure SourceCite where
  content : String
  source : String
  rank : Nat
  deriving DecidableEq, Repr

/-- The `metadata` sub-dictionary of an `ask_with_styles` result.  The
`query_timestamp` key is omitted (real time). -/
structure RAGMetadata where
  model_used : String
  documents_retrieved : Option Nat := none
  deriving DecidableEq, Repr

/-- The result dictionary of `ask_with_styles`: either the error response
shape of lines 207-215 or the ConversionService result enriched at
lines 260-264. -/
structure StyleResult where
  success : Bool
  converted_texts : StyleVariants
  sources : List SourceCite := []
  rag_context : Option String := none
  metadata : RAGMetadata
  error : Option String := none
  deriving DecidableEq, Repr

/-- Construction-time state of a `RAGChain` instance.  `services_available`
is the module-probe flag of `_check_services_availability`;
`conversion_service_loads` / `user_preferences_loads` record whether
`_get_service` succeeds in instantiating the respective service;
`is_initialized` and `retrieverK` are set by `_load_vectorstore`. -/
structure RAGState where
  services_available : Bool
  conversion_service_loads : Bool
  user_preferences_loads : Bool
  is_initialized : Bool
  retrieverK : Option Nat := none
  deriving DecidableEq, Repr

/-- In the source, `_get_service("conversion_service")` returns a service (not `None`) iff the
modules were found and the instantiation succeeds (lines 104-128). -/
def conversionServiceAvailable (st : RAGState) : Bool :=
  st.services_available && st.conversion_service_loads

/-- In the source, `_get_service("user_preferences_service")` returns a service iff the
modules were found and the instantiation succeeds (lines 104-128). -/
def userPreferencesServiceAvailable (st : RAGState) : Bool :=
  st.services_available && st.user_preferences_loads

/-- Embedding of `RAGChain._load_vectorstore` (lines 130-146): on a successful load the
retriever is configured with `search_kwargs = (k : 5)` and the chain becomes
initialized; on failure the state is unchanged. -/
def load_vectorstore (st : RAGState) (loaded : Bool) : RAGState :=
  if loaded then
    { st with retrieverK := some 5, is_initialized := true }
  else
    st

/-- The display truncation used for citations and the grounding preview:
`s[:n] + "..." if len(s) > n else s`. -/
def previewTrunc (n : Nat) (s : String) : String :=
  if s.length > n then s.take n ++ "..." else s

/-- The source identifier `doc.metadata.get("source", "Document_i")` for the 1-based index `i`. -/
def docSource (i : Nat) (doc : RetrievedDoc) : String :=
  doc.source.getD ("Document_" ++ toString i)

/-- One element of `context_parts` (line 241). -/
def contextPart (i : Nat) (doc : RetrievedDoc) : String :=
  "[Reference Document " ++ toString i ++ "] (" ++ docSource i doc ++ "):\n" ++ doc.page_content

/-- One element of `sources` (lines 243-247). -/
def sourceCiteOf (i : Nat) (doc : RetrievedDoc) : SourceCite :=
  { content := previewTrunc 100 doc.page_content,
    source := docSource i doc,
    rank := i }

/-- Embedding of `enumerate(docs, i)`: pair each document with its index starting at `i`. -/
def enumFrom (i : Nat) : List RetrievedDoc → List (Nat × RetrievedDoc)
  | [] => []
  | d :: ds => (i, d) :: enumFrom (i + 1) ds

/-- The grounding block `retrieved_docs = "\n\n".join(context_parts)` (line 249). -/
def groundingBlock (docs : List RetrievedDoc) : String :=
  String.intercalate "\n\n" ((enumFrom 1 docs).map fun x => contextPart x.1 x.2)

/-- The full `sources` list (lines 238-247). -/
def citesOf (docs : List RetrievedDoc) : List SourceCite :=
  (enumFrom 1 docs).map fun x => sourceCiteOf x.1 x.2

/-- The combined input `enhanced_input` (line 250). -/
def enhancedInput (query : String) (docs : List RetrievedDoc) : String :=
  "Question: " ++ query ++ "\n\nReference Documents:\n" ++ groundingBlock docs

/-- Outcome of the `conversion_service.convert_text` call: its result
dictionary, or the exception it raises. -/
inductive ConvertCall where
  | ok (r : StyleResult)
  | exn (msg : String)
  deriving DecidableEq, Repr

/-- Oracle for one `ask_with_styles` call: what
`retriever.get_relevant_documents` returns (or raises), and what
`convert_text` would return if reached. -/
structure AskOracle where
  retrieval : Except String (List RetrievedDoc)
  conv : ConvertCall
  deriving Repr

/-- Observable outcome of one `ask_with_styles` call: the returned result,
whether `convert_text` was invoked, and if so with which `input_text`. -/
structure AskOutcome where
  result : StyleResult
  convert_called : Bool
  convert_input : Option String
  deriving DecidableEq, Repr

/-- The `error_response` template of lines 207-215 with its `error` key set. -/
def errorResponse (msg : String) : StyleResult :=
  { success := false,
    converted_texts := { direct := "", gentle := "", neutral := "" },
    sources := [],
    metadata := { model_used := "none" },
    error := some msg }

/-- Embedding of `RAGChain.ask_with_styles` (lines 205-271).  The `try` block is modelled
by matching on the oracle: a raising retrieval or a raising `convert_text`
lands in the outer `except` (lines 268-271). -/
def ask_with_styles (st : RAGState) (query : String) (user_profile : UserProfile)
    (context : String) (o : AskOracle) : AskOutcome :=
  if conversionServiceAvailable st = false then
    { result := errorResponse "Cannot load ConversionService.",
      convert_called := false, convert_input := none }
  else if st.is_initialized = false then
    { result := errorResponse "RAG system is not initialized.",
      convert_called := false, convert_input := none }
  else
    match o.retrieval with
    | .error e =>
      { result := errorResponse ("Error occurred during style conversion: " ++ e),
        convert_called := false, convert_input := none }
    | .ok docs =>
      if docs = [] then
        { result := errorResponse "No related documents found.",
          convert_called := false, convert_input := none }
      else
        match o.conv with
        | .exn e =>
          { result := errorResponse ("Error occurred during style conversion: " ++ e),
            convert_called := true, convert_input := some (enhancedInput query docs) }
        | .ok result =>
          if result.success then
            { result :=
                { result with
                  sources := citesOf docs,
                  rag_context := some (previewTrunc 300 (groundingBlock docs)),
                  metadata :=
                    { result.metadata with
                      documents_retrieved := some docs.length,
                      model_used := "gpt-4o + faiss" } },
              convert_called := true, convert_input := some (enhancedInput query docs) }
          else
            { result := result,
              convert_called := true, convert_input := some (enhancedInput query docs) }

/-- The result dictionary of `process_user_feedback`.  `advanced_learning`
models the `style_adjustments` entry of the advanced path;
`feedback_processed` its `feedback_processed` key. -/
structure FeedbackResult where
  success : Bool
  updated_profile : UserProfile
  processing_method : String
  error : Option String := none
  feedback_processed : Option String := none
  advanced_learning : Bool := false
  deriving DecidableEq, Repr

/-- Oracle for one `process_user_feedback` call: what
`user_preferences_service.adapt_user_style` returns (or raises) and what
`conversion_service.process_user_feedback` returns (or raises). -/
structure FeedbackOracle where
  adapt : Except String Bool
  basic : Except String FeedbackResult
  deriving Repr

/-- A sample ConversionService feedback result used to instantiate oracles in
concrete evaluations. -/
def sampleBasicResult : FeedbackResult :=
  { success := true, updated_profile := {}, processing_method := "" }

/-- The outer `except` of `process_user_feedback` (lines 320-327). -/
def feedbackExceptionResult (user_profile : UserProfile) (e : String) : FeedbackResult :=
  { success := false,
    updated_profile := user_profile,
    processing_method := "error",
    error := some e }

/-- The basic branch of `process_user_feedback` (lines 302-318): the `"none"`
result when ConversionService cannot be loaded, otherwise the service result
with its `processing_method` key overwritten. -/
def feedbackBasicPath (st : RAGState) (user_profile : UserProfile) (o : FeedbackOracle) :
    FeedbackResult :=
  if conversionServiceAvailable st = false then
    { success := false,
      error := some "Feedback processing service is not initialized.",
      updated_profile := user_profile,
      processing_method := "none" }
  else
    match o.basic with
    | .error e => feedbackExceptionResult user_profile e
    | .ok r => { r with processing_method := "conversion_service" }

/-- Embedding of `RAGChain.process_user_feedback` (lines 273-327).  A `user_profile.copy()`
is the same value in the embedding. -/
def process_user_feedback (st : RAGState) (feedback_text : String)
    (user_profile : UserProfile) (rating : Option Int) (selected_version : String)
    (o : FeedbackOracle) : FeedbackResult :=
  if rating.isSome ∧ userPreferencesServiceAvailable st = true then
    match o.adapt with
    | .error e => feedbackExceptionResult user_profile e
    | .ok true =>
      { success := true,
        updated_profile := user_profile,
        advanced_learning := true,
        feedback_processed := some feedback_text,
        processing_method := "user_preferences_service" }
    | .ok false => feedbackBasicPath st user_profile o
  else
    feedbackBasicPath st user_profile o

/-- C1 counterexample: a profile with formal-document mode set and base
formality 4 (no session override) escalates in the "personal" context, so the
clause "for every profile with base formality 4 and no session override, it
escalates iff the context is business or report" fails on the code. -/
theorem C1_mode_overrides_base4_iff :
    should_use_lora
      { formal_document_mode := true, baseFormalityLevel := some 4 } "personal" = true ∧
    ¬(("personal" : String) = "business" ∨ ("personal" : String) = "report") := by
  refine ⟨rfl, ?_⟩
  decide

/-- C1 (amended): the routing decision equals the reference definition, and the
base-formality-4 equivalence holds for profiles with no session override and
formal-document mode unset; a fully defaulted profile never escalates. -/
theorem C1_routing_matches_reference (p : UserProfile) (context : String) :
    should_use_lora p context = decideSpecRouting p context ∧
    (p.formal_document_mode = false → p.sessionFormalityLevel = none →
      p.baseFormalityLevel = some 4 →
      (should_use_lora p context = true ↔ context = "business" ∨ context = "report")) ∧
    (p.formal_document_mode = false → p.sessionFormalityLevel = none →
      p.baseFormalityLevel = none → should_use_lora p context = false) := by
  refine ⟨?_, ?_, ?_⟩
  · unfold should_use_lora decideSpecRouting effectiveFormality
    cases hm : p.formal_document_mode <;>
      cases hs : p.sessionFormalityLevel <;>
        cases hb : p.baseFormalityLevel <;>
          simp [List.mem_cons]
  · intro hm hs hb
    unfold should_use_lora effectiveFormality
    rw [hm, hs, hb]
    simp [List.mem_cons]
  · intro hm hs hb
    unfold should_use_lora effectiveFormality
    rw [hm, hs, hb]
    simp

/-- C1 witness: the amended equivalence evaluated at the profile with base
formality 4 and the "report" context. -/
theorem C1_routing_matches_reference_witness :
    should_use_lora { baseFormalityLevel := some 4 } "report" = true ↔
      ("report" : String) = "business" ∨ ("report" : String) = "report" :=
  (C1_routing_matches_reference { baseFormalityLevel := some 4 } "report").2.1 rfl rfl rfl

/-- C2: with `force_convert = true`, `convert_to_formal` always records reason
`user_explicit_request`, and never returns the declined result
(`success = false` together with `method = "none"`). -/
theorem C2_force_convert_always_escalates (st : FinetuneState) (input_text : String)
    (p : UserProfile) (context : String) (o : ConvertOracle) :
    (convert_to_formal st input_text p context true o).reason = "user_explicit_request" ∧
    ¬((convert_to_formal st input_text p context true o).success = false ∧
      (convert_to_formal st input_text p context true o).method = "none") := by
  unfold convert_to_formal shouldConvert conversionReason
  cases hu : o.unexpected <;>
    cases hi : st.is_inference_server_available <;>
      cases hg : o.gen <;>
        simp [generate_with_lora, hi]

/-- C2 witness: a concrete forced conversion against an unreachable server. -/
theorem C2_force_convert_always_escalates_witness :
    (convert_to_formal ⟨false, false⟩ "hello" {} "personal" true
      ⟨.ok "gen", .ok "ref", none⟩).reason = "user_explicit_request" ∧
    ¬((convert_to_formal ⟨false, false⟩ "hello" {} "personal" true
        ⟨.ok "gen", .ok "ref", none⟩).success = false ∧
      (convert_to_formal ⟨false, false⟩ "hello" {} "personal" true
        ⟨.ok "gen", .ok "ref", none⟩).method = "none") :=
  C2_force_convert_always_escalates ⟨false, false⟩ "hello" {} "personal"
    ⟨.ok "gen", .ok "ref", none⟩

/-- C3 counterexample: with the inference server marked reachable, a transport
failure of the generation call substitutes the original text yet the returned
method is still "lora_gpt", not "gpt_only". -/
theorem C3_transport_failure_keeps_lora_tag :
    (convert_to_formal ⟨true, true⟩ "original" {} "business" true
      ⟨.httpError "timeout", .ok "refined", none⟩).method = "lora_gpt" ∧
    (convert_to_formal ⟨true, true⟩ "original" {} "business" true
      ⟨.httpError "timeout", .ok "refined", none⟩).lora_output = some "original" ∧
    ("lora_gpt" : String) ≠ "gpt_only" := by
  refine ⟨rfl, rfl, ?_⟩
  decide

/-- C3 (amended): on the escalated path the method tag depends only on the
construction-time reachability flag — "lora_gpt" when the server was reachable
at the health probe (even if the generation call fails and the original text is
substituted) and "gpt_only" when it was not. -/
theorem C3_method_reflects_probe (st : FinetuneState) (input_text : String)
    (p : UserProfile) (context : String) (force_convert : Bool) (o : ConvertOracle)
    (hesc : shouldConvert p context force_convert = true)
    (hu : o.unexpected = none) :
    (convert_to_formal st input_text p context force_convert o).method =
      (if st.is_inference_server_available then "lora_gpt" else "gpt_only") := by
  unfold convert_to_formal
  rw [hesc]
  cases hi : st.is_inference_server_available <;>
    cases hg : o.gen <;>
      simp [hu, hi, hg, generate_with_lora]

/-- C3 witness: a concrete escalated call against an unreachable server. -/
theorem C3_method_reflects_probe_witness :
    (convert_to_formal ⟨true, false⟩ "hello" {} "personal" true
      ⟨.ok "gen", .ok "ref", none⟩).method =
      (if (⟨true, false⟩ : FinetuneState).is_inference_server_available then "lora_gpt"
        else "gpt_only") :=
  C3_method_reflects_probe ⟨true, false⟩ "hello" {} "personal" true
    ⟨.ok "gen", .ok "ref", none⟩ rfl rfl

/-- C4: on the escalated path with the server reachable, any transport,
timeout or response failure of the generation call is recovered locally — the
result still succeeds and the original input text stands as the primary
output; only an unexpected exception elsewhere in the orchestration produces
`success = false` with `method = "error"` and the exception message.
`convert_to_formal` is a total function of its oracle, so it never raises. -/
theorem C4_generation_failure_recovered (st : FinetuneState) (input_text : String)
    (p : UserProfile) (context : String) (force_convert : Bool) (o : ConvertOracle)
    (e : String)
    (hesc : shouldConvert p context force_convert = true)
    (hi : st.is_inference_server_available = true) :
    (o.unexpected = none → o.gen.failed = true →
      (convert_to_formal st input_text p context force_convert o).success = true ∧
      (convert_to_formal st input_text p context force_convert o).lora_output =
        some input_text) ∧
    (o.unexpected = some e →
      (convert_to_formal st input_text p context force_convert o).success = false ∧
      (convert_to_formal st input_text p context force_convert o).method = "error" ∧
      (convert_to_formal st input_text p context force_convert o).error =
        some ("Error occurred during conversion: " ++ e)) := by
  constructor
  · intro hu hf
    unfold convert_to_formal
    rw [hesc]
    cases hg : o.gen <;>
      simp_all [generate_with_lora, GenOutcome.failed]
  · intro hu
    unfold convert_to_formal
    rw [hesc]
    simp [hu]

/-- C4 witness: a concrete escalated call whose generation times out. -/
theorem C4_generation_failure_recovered_witness :
    (((⟨.httpError "timeout", .ok "ref", none⟩ : ConvertOracle).unexpected = none →
      (convert_to_formal ⟨true, true⟩ "hello" {} "business" true
        ⟨.httpError "timeout", .ok "ref", none⟩).success = true ∧
      (convert_to_formal ⟨true, true⟩ "hello" {} "business" true
        ⟨.httpError "timeout", .ok "ref", none⟩).lora_output = some "hello") ∧
    ((⟨.httpError "timeout", .ok "ref", none⟩ : ConvertOracle).unexpected = some "boom" →
      (convert_to_formal ⟨true, true⟩ "hello" {} "business" true
        ⟨.httpError "timeout", .ok "ref", none⟩).success = false ∧
      (convert_to_formal ⟨true, true⟩ "hello" {} "business" true
        ⟨.httpError "timeout", .ok "ref", none⟩).method = "error" ∧
      (convert_to_formal ⟨true, true⟩ "hello" {} "business" true
        ⟨.httpError "timeout", .ok "ref", none⟩).error =
        some ("Error occurred during conversion: " ++ "boom"))) := by
  have h := C4_generation_failure_recovered ⟨true, true⟩ "hello"
    { baseFormalityLevel := none } "business" true
    ⟨.httpError "timeout", .ok "ref", none⟩ "boom" rfl rfl
  exact ⟨fun hu => h.1 hu rfl, h.2⟩

/-- C5: on the escalated path, when the refinement stage fails (Services
unavailable, or the refinement call raises), the conversion still returns
`success = true` and `converted_text` is the unrefined primary-stage output
(the generation output on the server path, the original input otherwise). -/
theorem C5_refinement_failure_returns_primary (st : FinetuneState) (input_text : String)
    (p : UserProfile) (context : String) (force_convert : Bool) (o : ConvertOracle)
    (hesc : shouldConvert p context force_convert = true)
    (hu : o.unexpected = none)
    (href : st.services_available = false ∨ ∃ e, o.refine = .exn e) :
    (convert_to_formal st input_text p context force_convert o).success = true ∧
    (convert_to_formal st input_text p context force_convert o).converted_text =
      ((convert_to_formal st input_text p context force_convert o).lora_output.getD
        input_text) := by
  unfold convert_to_formal
  rw [hesc]
  rcases href with h | ⟨e, he⟩
  · cases hi : st.is_inference_server_available <;>
      cases hg : o.gen <;>
        simp [hu, hi, hg, generate_with_lora, refine_with_gpt, h]
  · cases hi : st.is_inference_server_available <;>
      cases hg : o.gen <;>
        simp [hu, hi, hg, generate_with_lora, refine_with_gpt, he]

/-- C5 witness: a concrete escalated call whose refinement raises. -/
theorem C5_refinement_failure_returns_primary_witness :
    (convert_to_formal ⟨true, true⟩ "hello" {} "business" true
      ⟨.ok "formalised", .exn "rate limit", none⟩).success = true ∧
    (convert_to_formal ⟨true, true⟩ "hello" {} "business" true
      ⟨.ok "formalised", .exn "rate limit", none⟩).converted_text =
      ((convert_to_formal ⟨true, true⟩ "hello" {} "business" true
        ⟨.ok "formalised", .exn "rate limit", none⟩).lora_output.getD "hello") :=
  C5_refinement_failure_returns_primary ⟨true, true⟩ "hello" {} "business" true
    ⟨.ok "formalised", .exn "rate limit", none⟩ rfl rfl (Or.inr ⟨"rate limit", rfl⟩)

/-- C6: when the Document Index is uninitialized or retrieval returns zero
passages, `ask_with_styles` returns `success = false` with empty sources, a
non-empty error message, empty style variants, and the style-conversion
delegate is never invoked (no ungrounded generation). -/
theorem C6_no_grounding_fails_closed (st : RAGState) (query : String)
    (user_profile : UserProfile) (context : String) (o : AskOracle)
    (h : st.is_initialized = false ∨ o.retrieval = .ok []) :
    (ask_with_styles st query user_profile context o).result.success = false ∧
    (ask_with_styles st query user_profile context o).result.sources = [] ∧
    (∃ m, (ask_with_styles st query user_profile context o).result.error = some m ∧
      m ≠ "") ∧
    (ask_with_styles st query user_profile context o).result.converted_texts =
      { direct := "", gentle := "", neutral := "" } ∧
    (ask_with_styles st query user_profile context o).convert_called = false := by
  unfold ask_with_styles
  cases hc : conversionServiceAvailable st
  · exact ⟨rfl, rfl, ⟨_, rfl, by decide⟩, rfl, rfl⟩
  · cases hinit : st.is_initialized
    · exact ⟨rfl, rfl, ⟨_, rfl, by decide⟩, rfl, rfl⟩
    · rcases h with h | h
      · exact absurd hinit (by simp [h])
      · rw [h]
        exact ⟨rfl, rfl, ⟨_, rfl, by decide⟩, rfl, rfl⟩

/-- C6 witness: a concrete initialized chain whose retriever finds nothing. -/
theorem C6_no_grounding_fails_closed_witness :
    (ask_with_styles ⟨true, true, true, true, some 5⟩ "query" {} "personal"
      ⟨.ok [], .ok (errorResponse "unused")⟩).result.success = false ∧
    (ask_with_styles ⟨true, true, true, true, some 5⟩ "query" {} "personal"
      ⟨.ok [], .ok (errorResponse "unused")⟩).result.sources = [] ∧
    (∃ m, (ask_with_styles ⟨true, true, true, true, some 5⟩ "query" {} "personal"
      ⟨.ok [], .ok (errorResponse "unused")⟩).result.error = some m ∧ m ≠ "") ∧
    (ask_with_styles ⟨true, true, true, true, some 5⟩ "query" {} "personal"
      ⟨.ok [], .ok (errorResponse "unused")⟩).result.converted_texts =
      { direct := "", gentle := "", neutral := "" } ∧
    (ask_with_styles ⟨true, true, true, true, some 5⟩ "query" {} "personal"
      ⟨.ok [], .ok (errorResponse "unused")⟩).convert_called = false :=
  C6_no_grounding_fails_closed ⟨true, true, true, true, some 5⟩ "query" {} "personal"
    ⟨.ok [], .ok (errorResponse "unused")⟩ (Or.inr rfl)

/-- C7: on the grounded success path, the retriever prepared by a successful
index load is configured with k = 5, the delegate receives the combined input
"Question: <query>\n\nReference Documents:\n<grounding block>" built from the
full, untruncated passage contents with 1-based labels and source identifiers,
and the returned result carries citations whose previews are truncated to 100
characters per passage and a grounding preview truncated to 300 characters. -/
theorem C7_grounded_delegation (st : RAGState) (query : String)
    (user_profile : UserProfile) (context : String) (o : AskOracle)
    (docs : List RetrievedDoc) (r : StyleResult)
    (hc : conversionServiceAvailable st = true)
    (hinit : st.is_initialized = true)
    (hret : o.retrieval = .ok docs)
    (hne : docs ≠ [])
    (hconv : o.conv = .ok r)
    (hsucc : r.success = true) :
    (load_vectorstore st true).retrieverK = some 5 ∧
    (ask_with_styles st query user_profile context o).convert_input =
      some ("Question: " ++ query ++ "\n\nReference Documents:\n" ++
        String.intercalate "\n\n" ((enumFrom 1 docs).map fun x =>
          "[Reference Document " ++ toString x.1 ++ "] (" ++
            x.2.source.getD ("Document_" ++ toString x.1) ++ "):\n" ++
            x.2.page_content)) ∧
    (ask_with_styles st query user_profile context o).result.success = true ∧
    (ask_with_styles st query user_profile context o).result.sources =
      (enumFrom 1 docs).map (fun x =>
        { content :=
            if x.2.page_content.length > 100 then x.2.page_content.take 100 ++ "..."
            else x.2.page_content,
          source := x.2.source.getD ("Document_" ++ toString x.1),
          rank := x.1 }) ∧
    (ask_with_styles st query user_profile context o).result.rag_context =
      some (if (groundingBlock docs).length > 300 then
          (groundingBlock docs).take 300 ++ "..."
        else groundingBlock docs) := by
  unfold ask_with_styles load_vectorstore
  simp [hc, hinit, hret, hne, hconv, hsucc, enhancedInput, groundingBlock,
    contextPart, docSource, citesOf, sourceCiteOf, previewTrunc]

/-- C7 witness: a concrete grounded call with two passages, one long enough to
be truncated in its citation preview. -/
theorem C7_grounded_delegation_witness :
    (load_vectorstore ⟨true, true, true, true, some 5⟩ true).retrieverK = some 5 ∧
    (ask_with_styles ⟨true, true, true, true, some 5⟩ "q" {} "personal"
      ⟨.ok [{ page_content := "alpha", source := some "a.txt" },
            { page_content := "beta", source := none }],
        .ok { success := true,
              converted_texts := { direct := "d", gentle := "g", neutral := "n" },
              metadata := { model_used := "gpt-4o" } }⟩).convert_input =
      some ("Question: " ++ "q" ++ "\n\nReference Documents:\n" ++
        String.intercalate "\n\n"
          ((enumFrom 1 [{ page_content := "alpha", source := some "a.txt" },
              { page_content := "beta", source := none }]).map fun x =>
            "[Reference Document " ++ toString x.1 ++ "] (" ++
              x.2.source.getD ("Document_" ++ toString x.1) ++ "):\n" ++
              x.2.page_content)) ∧
    (ask_with_styles ⟨true, true, true, true, some 5⟩ "q" {} "personal"
      ⟨.ok [{ page_content := "alpha", source := some "a.txt" },
            { page_content := "beta", source := none }],
        .ok { success := true,
              converted_texts := { direct := "d", gentle := "g", neutral := "n" },
              metadata := { model_used := "gpt-4o" } }⟩).result.success = true ∧
    (ask_with_styles ⟨true, true, true, true, some 5⟩ "q" {} "personal"
      ⟨.ok [{ page_content := "alpha", source := some "a.txt" },
            { page_content := "beta", source := none }],
        .ok { success := true,
              converted_texts := { direct := "d", gentle := "g", neutral := "n" },
              metadata := { model_used := "gpt-4o" } }⟩).result.sources =
      (enumFrom 1 [{ page_content := "alpha", source := some "a.txt" },
          { page_content := "beta", source := none }]).map (fun x =>
        { content :=
            if x.2.page_content.length > 100 then x.2.page_content.take 100 ++ "..."
            else x.2.page_content,
          source := x.2.source.getD ("Document_" ++ toString x.1),
          rank := x.1 }) ∧
    (ask_with_styles ⟨true, true, true, true, some 5⟩ "q" {} "personal"
      ⟨.ok [{ page_content := "alpha", source := some "a.txt" },
            { page_content := "beta", source := none }],
        .ok { success := true,
              converted_texts := { direct := "d", gentle := "g", neutral := "n" },
              metadata := { model_used := "gpt-4o" } }⟩).result.rag_context =
      some (if (groundingBlock [{ page_content := "alpha", source := some "a.txt" },
            { page_content := "beta", source := none }]).length > 300 then
          (groundingBlock [{ page_content := "alpha", source := some "a.txt" },
            { page_content := "beta", source := none }]).take 300 ++ "..."
        else groundingBlock [{ page_content := "alpha", source := some "a.txt" },
          { page_content := "beta", source := none }]) :=
  C7_grounded_delegation ⟨true, true, true, true, some 5⟩ "q" {} "personal"
    ⟨.ok [{ page_content := "alpha", source := some "a.txt" },
          { page_content := "beta", source := none }],
      .ok { success := true,
            converted_texts := { direct := "d", gentle := "g", neutral := "n" },
            metadata := { model_used := "gpt-4o" } }⟩
    [{ page_content := "alpha", source := some "a.txt" },
      { page_content := "beta", source := none }]
    { success := true,
      converted_texts := { direct := "d", gentle := "g", neutral := "n" },
      metadata := { model_used := "gpt-4o" } }
    rfl rfl rfl (List.cons_ne_nil _ _) rfl rfl

/-- C8 counterexample: with an available Preference Store reporting success,
the returned `processing_method` is the literal "user_preferences_service",
not "advanced" (and the basic tag is "conversion_service", not "basic"). -/
theorem C8_processing_method_literals :
    (process_user_feedback ⟨true, true, true, true, some 5⟩ "good" {} (some 5) "direct"
      ⟨.ok true, .ok sampleBasicResult⟩).processing_method = "user_preferences_service" ∧
    ("user_preferences_service" : String) ≠ "advanced" ∧
    ("conversion_service" : String) ≠ "basic" := by
  refine ⟨rfl, ?_, ?_⟩ <;> decide

/-- C8 (amended): with a rating and an available Preference Store reporting
success, the call returns immediately with
`processing_method = "user_preferences_service"` (the advanced path) and the
basic path is not applied; otherwise (no rating, or that path unavailable or
unsuccessful) the result is exactly the basic-path result, which carries
`processing_method = "conversion_service"` whenever ConversionService is
available and its call returns. -/
theorem C8_feedback_routing (st : RAGState) (feedback_text : String)
    (user_profile : UserProfile) (rating : Option Int) (selected_version : String)
    (o : FeedbackOracle) (r : FeedbackResult) :
    (rating.isSome = true → userPreferencesServiceAvailable st = true →
      o.adapt = .ok true →
      process_user_feedback st feedback_text user_profile rating selected_version o =
        { success := true,
          updated_profile := user_profile,
          advanced_learning := true,
          feedback_processed := some feedback_text,
          processing_method := "user_preferences_service" }) ∧
    ((rating = none ∨ userPreferencesServiceAvailable st = false ∨ o.adapt = .ok false) →
      process_user_feedback st feedback_text user_profile rating selected_version o =
        feedbackBasicPath st user_profile o) ∧
    (o.basic = .ok r → conversionServiceAvailable st = true →
      (feedbackBasicPath st user_profile o).processing_method = "conversion_service") := by
  refine ⟨?_, ?_, ?_⟩
  · intro h1 h2 h3
    unfold process_user_feedback
    simp [h1, h2, h3]
  · intro h
    unfold process_user_feedback
    rcases h with h | h | h
    · simp [h]
    · simp [h]
    · by_cases hc : rating.isSome = true ∧ userPreferencesServiceAvailable st = true
      · rw [if_pos ⟨hc.1, hc.2⟩, h]
      · rw [if_neg fun hcon => hc ⟨hcon.1, hcon.2⟩]
  · intro hb hcs
    unfold feedbackBasicPath
    simp [hb, hcs]

/-- C8 witness: the advanced branch taken at a concrete call, and the basic
branch taken when the Preference Store reports no success. -/
theorem C8_feedback_routing_witness :
    (process_user_feedback ⟨true, true, true, true, some 5⟩ "nice" {} (some 4) "neutral"
      ⟨.ok true, .ok sampleBasicResult⟩ =
      { success := true,
        updated_profile := {},
        advanced_learning := true,
        feedback_processed := some "nice",
        processing_method := "user_preferences_service" }) ∧
    ((feedbackBasicPath ⟨true, true, true, true, some 5⟩ {}
      ⟨.ok true, .ok sampleBasicResult⟩).processing_method = "conversion_service") := by
  have h := C8_feedback_routing ⟨true, true, true, true, some 5⟩ "nice" {} (some 4)
    "neutral"
    ⟨.ok true, .ok sampleBasicResult⟩ sampleBasicResult
  exact ⟨h.1 rfl rfl rfl, h.2.2 rfl rfl⟩

/-- C9: `process_user_feedback` is a total function of its oracle (it never
raises).  When the basic path is reached and ConversionService cannot be
loaded it returns `success = false`, `processing_method = "none"` and the
original profile; every exception raised inside (by the Preference Store
adaptation or by the ConversionService call) is converted into the structured
failure result carrying the exception message and the original profile. -/
theorem C9_feedback_never_raises (st : RAGState) (feedback_text : String)
    (user_profile : UserProfile) (rating : Option Int) (selected_version : String)
    (o : FeedbackOracle) (e : String) :
    ((rating = none ∨ userPreferencesServiceAvailable st = false ∨ o.adapt = .ok false) →
      conversionServiceAvailable st = false →
      process_user_feedback st feedback_text user_profile rating selected_version o =
        { success := false,
          error := some "Feedback processing service is not initialized.",
          updated_profile := user_profile,
          processing_method := "none" }) ∧
    ((rating.isSome = true ∧ userPreferencesServiceAvailable st = true ∧
        o.adapt = .error e) ∨
      ((rating = none ∨ userPreferencesServiceAvailable st = false ∨
          o.adapt = .ok false) ∧
        conversionServiceAvailable st = true ∧ o.basic = .error e) →
      process_user_feedback st feedback_text user_profile rating selected_version o =
        feedbackExceptionResult user_profile e) := by
  constructor
  · intro h hcs
    unfold process_user_feedback feedbackBasicPath
    rcases h with h | h | h
    · simp [h, hcs]
    · simp [h, hcs]
    · by_cases hc : rating.isSome = true ∧ userPreferencesServiceAvailable st = true
      · simp [hc.1, hc.2, h, hcs]
      · rw [if_neg fun hcon => hc ⟨hcon.1, hcon.2⟩]
        simp [hcs]
  · intro h
    unfold process_user_feedback feedbackBasicPath
    rcases h with ⟨h1, h2, h3⟩ | ⟨h, hcs, hb⟩
    · simp [h1, h2, h3]
    · rcases h with h | h | h
      · simp [h, hcs, hb]
      · simp [h, hcs, hb]
      · by_cases hc : rating.isSome = true ∧ userPreferencesServiceAvailable st = true
        · simp [hc.1, hc.2, h, hcs, hb]
        · rw [if_neg fun hcon => hc ⟨hcon.1, hcon.2⟩]
          simp [hcs, hb]

/-- C9 witness: the "none" result at a concrete call with no loadable
ConversionService, and the structured failure at a concrete raising
adaptation. -/
theorem C9_feedback_never_raises_witness :
    (process_user_feedback ⟨true, false, false, true, some 5⟩ "meh" {} none "neutral"
      ⟨.ok true, .ok sampleBasicResult⟩ =
      { success := false,
        error := some "Feedback processing service is not initialized.",
        updated_profile := {},
        processing_method := "none" }) ∧
    (process_user_feedback ⟨true, true, true, true, some 5⟩ "meh" {} (some 2) "neutral"
      ⟨.error "db down", .ok sampleBasicResult⟩ =
      feedbackExceptionResult {} "db down") := by
  constructor
  · exact (C9_feedback_never_raises ⟨true, false, false, true, some 5⟩ "meh" {} none
      "neutral"
      ⟨.ok true, .ok sampleBasicResult⟩ "unused").1 (Or.inl rfl) rfl
  · exact (C9_feedback_never_raises ⟨true, true, true, true, some 5⟩ "meh" {} (some 2)
      "neutral"
      ⟨.error "db down", .ok sampleBasicResult⟩
      "db down").2 (Or.inl ⟨rfl, rfl, rfl⟩)

/-- C10: every outcome the feedback router constructs itself — that is, every
result whose `processing_method` is not the pass-through tag
"conversion_service" — carries the caller's input profile unchanged as
`updated_profile`. -/
theorem C10_router_returns_input_profile (st : RAGState) (feedback_text : String)
    (user_profile : UserProfile) (rating : Option Int) (selected_version : String)
    (o : FeedbackOracle)
    (h : (process_user_feedback st feedback_text user_profile rating selected_version
        o).processing_method ≠ "conversion_service") :
    (process_user_feedback st feedback_text user_profile rating selected_version
      o).updated_profile = user_profile := by
  unfold process_user_feedback feedbackBasicPath feedbackExceptionResult at h ⊢
  by_cases hc : rating.isSome = true ∧ userPreferencesServiceAvailable st = true
  · rw [if_pos ⟨hc.1, hc.2⟩] at h ⊢
    cases ha : o.adapt with
    | error e => rfl
    | ok b =>
      cases b
      · cases hcs : conversionServiceAvailable st
        · rfl
        · cases hb : o.basic with
          | error e => rfl
          | ok r =>
            rw [ha, hcs, hb] at h
            exact absurd rfl h
      · rfl
  · rw [if_neg fun hcon => hc ⟨hcon.1, hcon.2⟩] at h ⊢
    cases hcs : conversionServiceAvailable st
    · rfl
    · cases hb : o.basic with
      | error e => rfl
      | ok r =>
        rw [hcs, hb] at h
        exact absurd rfl h

/-- C10 witness: the "none" path at a concrete call returns the input profile
unchanged. -/
theorem C10_router_returns_input_profile_witness :
    (process_user_feedback ⟨false, false, false, false, none⟩ "text"
      { userId := some "u1" } none "neutral"
      ⟨.ok true, .ok sampleBasicResult⟩).updated_profile = { userId := some "u1" } :=
  C10_router_returns_input_profile ⟨false, false, false, false, none⟩ "text"
    { userId := some "u1" } none "neutral"
    ⟨.ok true, .ok sampleBasicResult⟩ (by decide)

end ChatToner
